import Mathlib

/-!
Verification of the pvc-autoscaler resize decision engine.

The source of truth is `src/cmd/reconcile.go`: the method `reconcile` iterates
annotated PersistentVolumeClaims and decides, per claim, whether to enlarge its
storage request, and `updatePVCWithNewStorageSize` performs the persisted write.
Every definition below embeds that code; helper functions that the repository
declares outside `src/` (the policy parser, the ceiling reader, the listing and
the external predicates) are modelled from the specification and say so in
their doc comments.

Byte quantities are embedded as `Nat` (capacities, usage and targets are
non-negative int64 values in the source); the marker annotation is parsed as an
`Int` because Go's `strconv.ParseInt` accepts signed input.
-/

/-- One gibibyte, `1<<30` in the source (1073741824 bytes). -/
def gib : Nat := 1073741824

/-- Threshold annotation key (constant `PVCAutoscalerThresholdAnnotation`). -/
def thresholdKey : String := "threshold"

/-- Increase annotation key (constant `PVCAutoscalerIncreaseAnnotation`). -/
def increaseKey : String := "increase"

/-- Ceiling annotation key (read by `getPVCStorageCeiling`). -/
def ceilingKey : String := "ceiling"

/-- Marker annotation key (constant `PVCAutoscalerPreviousCapacityAnnotation`). -/
def previousCapacityKey : String := "previous_capacity"

/-- Resource key of the storage request (`corev1.ResourceStorage`). -/
def storageKey : String := "storage"

/-- Modelled from the spec: the default threshold is 80 percent. -/
def DefaultThreshold : Nat := 80

/-- Modelled from the spec: the default increase is 20 percent. -/
def DefaultIncrease : Nat := 20

/-- Lookup in an association list; embeds a Go map read. -/
def lookupKV {κ α : Type} [DecidableEq κ] : List (κ × α) → κ → Option α
  | [], _ => none
  | (k, v) :: rest, key => if k = key then some v else lookupKV rest key

/-- Overwrite-or-insert in an association list; embeds a Go map write. -/
def setKV {κ α : Type} [DecidableEq κ] : List (κ × α) → κ → α → List (κ × α)
  | [], key, v => [(key, v)]
  | (k, w) :: rest, key, v =>
    if k = key then (key, v) :: rest else (k, w) :: setKV rest key v

/-- Accumulator loop for decimal digit strings. -/
def digitsAux : List Char → Nat → Option Nat
  | [], acc => some acc
  | c :: cs, acc =>
    if c.isDigit then digitsAux cs (acc * 10 + (c.toNat - 48)) else none

/-- Parse a non-empty all-digit character list as a natural number. -/
def digitsToNat : List Char → Option Nat
  | [] => none
  | c :: cs => digitsAux (c :: cs) 0

/-- Does `s` end with `suf`? (Structural stand-in for `strings.HasSuffix`.) -/
def strEndsWith (s suf : String) : Bool :=
  decide (s.data.drop (s.data.length - suf.data.length) = suf.data)

/-- Drop the last `n` characters of `s`. -/
def strDropRight (s : String) (n : Nat) : String :=
  ⟨s.data.take (s.data.length - n)⟩

/-- Embeds `strconv.ParseInt(s, 10, 64)`: optional sign, decimal digits,
int64 range. -/
def parseGoInt (s : String) : Option Int :=
  match s.data with
  | [] => none
  | '-' :: cs =>
    match digitsToNat cs with
    | some n => if n ≤ 2 ^ 63 then some (-(n : Int)) else none
    | none => none
  | '+' :: cs =>
    match digitsToNat cs with
    | some n => if n < 2 ^ 63 then some ((n : Int)) else none
    | none => none
  | cs =>
    match digitsToNat cs with
    | some n => if n < 2 ^ 63 then some ((n : Int)) else none
    | none => none

/-- Binary quantity suffixes recognized by the quantity reader. -/
def binarySuffixes : List (String × Nat) :=
  [("Ki", 2 ^ 10), ("Mi", 2 ^ 20), ("Gi", 2 ^ 30),
   ("Ti", 2 ^ 40), ("Pi", 2 ^ 50), ("Ei", 2 ^ 60)]

/-- Modelled from the spec: absolute quantity strings such as "100Gi" (the
source parses them with `resource.ParseQuantity`, declared outside `src/`);
a plain decimal byte count or a binary-suffixed integer. -/
def parseQuantity (s : String) : Option Nat :=
  match binarySuffixes.find? (fun su => strEndsWith s su.1) with
  | some su =>
    match digitsToNat (strDropRight s 2).data with
    | some n => some (n * su.2)
    | none => none
  | none => digitsToNat s.data

/-- Modelled from the spec: `convertPercentageToBytes` is declared outside
`src/`. Per the spec, the value is either a percentage string interpreted
against the supplied reference (conversion `percentage * reference / 100`,
out-of-range percentages rejected since fractions satisfy 0 < t ≤ 1), or an
absolute quantity string (the policy invariant requires parsed values > 0);
an absent annotation (Go map read yields "") substitutes the documented
default percentage. Malformed values are a validation error. -/
def convertPercentageToBytes (value : String) (reference : Nat)
    (defaultPct : Nat) : Except String Nat :=
  if value = "" then Except.ok (defaultPct * reference / 100)
  else if strEndsWith value "%" then
    match digitsToNat (strDropRight value 1).data with
    | some p =>
      if 1 ≤ p ∧ p ≤ 100 then Except.ok (p * reference / 100)
      else Except.error "percentage out of range"
    | none => Except.error "malformed percentage"
  else
    match parseQuantity value with
    | some n => if 0 < n then Except.ok n else Except.error "invalid quantity"
    | none => Except.error "unable to parse quantity"

/-- Per-claim usage metrics (`VolumeUsedBytes`, `VolumeCapacityBytes`). -/
structure PvcMetrics where
  volumeUsedBytes : Nat
  volumeCapacityBytes : Nat
deriving DecidableEq

/-- Read-only view of one PersistentVolumeClaim as `reconcile` consumes it.
`storageClassName` embeds the `*string` field (a nil pointer is `none`);
`statusCapacity` embeds presence of `Status.Capacity[storage]`; `requests`
embeds `Spec.Resources.Requests`. The claims are produced by
`getAnnotatedPVCs` (outside `src/`, modelled from the spec), which selects
claims by their policy metadata, so `annotations` is a materialized map. -/
structure Pvc where
  ns : String
  name : String
  storageClassName : Option String
  annotations : List (String × String)
  statusCapacity : Option Nat
  requests : List (String × Int)
deriving DecidableEq

/-- Go map read `pvc.Annotations[key]`: missing keys yield the empty string. -/
def ann (pvc : Pvc) (key : String) : String :=
  (lookupKV pvc.annotations key).getD ""

/-- Modelled from the spec: `getPVCStorageCeiling` is declared outside `src/`.
The ceiling, if present, is parsed as an absolute quantity string; if absent
the claim has no configured ceiling (unbounded); a malformed value is an
error that skips the claim. -/
def getPVCStorageCeiling (pvc : Pvc) : Except String (Option Nat) :=
  match lookupKV pvc.annotations ceilingKey with
  | none => Except.ok none
  | some s =>
    match parseQuantity s with
    | some n => Except.ok (some n)
    | none => Except.error "failed to parse ceiling"

/-- Embeds `capacity.Cmp(ceiling) >= 0` when a ceiling is configured
(reconcile.go line 127); with no configured ceiling the claim is never at
its ceiling. -/
def ceilingReached (oc : Option Nat) (capacity : Nat) : Bool :=
  match oc with
  | some c => decide (c ≤ capacity)
  | none => false

/-- Embeds `if newStorage.Cmp(ceiling) > 0 { newStorage = &ceiling }`
(reconcile.go lines 142 to 144); the computed storage value is an int64 in
the source, so it is carried as an `Int` here. -/
def clampToCeiling (oc : Option Nat) (n : Int) : Int :=
  match oc with
  | some c => if (c : Int) < n then (c : Int) else n
  | none => n

/-- The exact round-up of `n` to the next gibibyte boundary: the value that
reconcile.go line 140 computes whenever its float64 arithmetic is exact
(operands of at most 2^53); used to characterize `goGibCeil` below on that
range. -/
def gibCeil (n : Nat) : Nat :=
  (n + (gib - 1)) / gib * gib

/-- Two's-complement wrap of an integer into the int64 range (the literals
are 2^63 and 2^64): Go's int64 addition and left shift wrap this way. -/
def wrapInt64 (x : Int) : Int :=
  (x + 9223372036854775808) % 18446744073709551616 - 9223372036854775808

/-- Fuel-driven binary length: `bitLenAux fuel n` is the number of binary
digits of `n`, for `n < 2 ^ fuel`. -/
def bitLenAux : Nat → Nat → Nat
  | 0, _ => 0
  | fuel + 1, n => if n = 0 then 0 else bitLenAux fuel (n / 2) + 1

/-- Number of binary digits of an int64-sized natural number. -/
def bitLen (n : Nat) : Nat := bitLenAux 64 n

/-- Round-to-nearest, ties to even, at 53 significant bits: the value of
the Go conversion `float64(n)` for a natural number `n` of at most 2^64.
Below 2^53 the conversion is exact; above, `n` is rounded to the nearest
multiple of the float64 spacing `2 ^ (bitLen n - 53)`. -/
def roundFloat64 (n : Nat) : Nat :=
  if n < 2 ^ 53 then n
  else
    if 2 * (n % 2 ^ (bitLen n - 53)) < 2 ^ (bitLen n - 53) then
      n / 2 ^ (bitLen n - 53) * 2 ^ (bitLen n - 53)
    else if 2 ^ (bitLen n - 53) < 2 * (n % 2 ^ (bitLen n - 53)) then
      (n / 2 ^ (bitLen n - 53) + 1) * 2 ^ (bitLen n - 53)
    else if n / 2 ^ (bitLen n - 53) % 2 = 0 then
      n / 2 ^ (bitLen n - 53) * 2 ^ (bitLen n - 53)
    else (n / 2 ^ (bitLen n - 53) + 1) * 2 ^ (bitLen n - 53)

/-- The Go conversion `float64(x)` for an int64 `x`: rounding is symmetric
in the sign. -/
def float64OfInt64 (x : Int) : Int :=
  if 0 ≤ x then (roundFloat64 x.toNat : Int)
  else -(roundFloat64 (-x).toNat : Int)

/-- Embeds `int64(math.Ceil(float64(capacity+increase)/(1<<30))) << 30`
(reconcile.go line 140) bit-faithfully for int64 operands: the int64 sum
wraps, the float64 conversion rounds to nearest with ties to even at 53
significant bits, the division by 2^30 and the ceiling are exact in float64
(so `(f + (2^30 - 1)) / 2^30` in integer floor division is that ceiling,
with literals 2^30 - 1 and 2^30, and the intermediate magnitude of at most
2^33 fits int64), and the final left shift by 30 wraps in int64. -/
def goGibCeil (capacity increase : Nat) : Int :=
  wrapInt64
    ((float64OfInt64 (wrapInt64 ((capacity : Int) + (increase : Int)))
        + 1073741823)
      / 1073741824 * 1073741824)

/-- External collaborators consumed by the per-claim pipeline:
`isStorageClassExpandable` (storage class lookup, may fail) and
`isPVCResizable` (external lifecycle predicate returning an explanatory
error); both are declared outside `src/` and consumed as opaque results,
as the spec prescribes. -/
structure Env where
  isExpandable : String → Except String Bool
  isResizable : Pvc → Except String Unit

/-- Runtime faults of the Go code: `reconcile` dereferences
`pvc.Spec.StorageClassName` (line 36) without a nil check. -/
inductive RuntimeFault
  | nilPointerDeref
deriving DecidableEq

/-- Reason a claim is skipped this cycle; one constructor per `continue`
branch of the reconcile loop, in source order. -/
inductive Reason
  | storageClassLookupFailed
  | notExpandable
  | notResizable
  | noMetrics
  | thresholdMalformed
  | capacityUnset
  | capacityZero
  | increaseMalformed
  | markerMalformed
  | pending
  | ceilingMalformed
  | atCeiling
  | belowThreshold
deriving DecidableEq

/-- Per-claim outcome: skip (action none) with a reason, or resize to
`target` bytes (an int64 in the source, hence `Int`: the wrapping target
computation of line 140 can in principle go negative), persisting
`newMarker` as the previous-capacity value. -/
inductive Decision
  | skip (r : Reason)
  | resize (target : Int) (newMarker : Nat)
deriving DecidableEq

/-- Ceiling fetch, ceiling gate, threshold trigger and target computation
(reconcile.go lines 120 to 146). -/
def growthStage (pvc : Pvc) (capacity threshold increase : Nat)
    (m : PvcMetrics) : Except RuntimeFault Decision :=
  match getPVCStorageCeiling pvc with
  | Except.error _ => Except.ok (Decision.skip Reason.ceilingMalformed)
  | Except.ok oc =>
    if ceilingReached oc capacity then Except.ok (Decision.skip Reason.atCeiling)
    else if threshold ≤ m.volumeUsedBytes then
      Except.ok (Decision.resize
        (clampToCeiling oc (goGibCeil capacity increase))
        m.volumeCapacityBytes)
    else Except.ok (Decision.skip Reason.belowThreshold)

/-- The pipeline stages that run once metrics for the claim are in hand
(reconcile.go lines 76 to 146): threshold conversion against the metrics
capacity, status-capacity presence and zero checks, increase conversion
against the status capacity, the previous-capacity oscillation guard, then
the growth stage. -/
def processPVCMetrics (m : PvcMetrics) (pvc : Pvc) :
    Except RuntimeFault Decision :=
  match convertPercentageToBytes (ann pvc thresholdKey)
      m.volumeCapacityBytes DefaultThreshold with
  | Except.error _ => Except.ok (Decision.skip Reason.thresholdMalformed)
  | Except.ok threshold =>
  match pvc.statusCapacity with
  | none => Except.ok (Decision.skip Reason.capacityUnset)
  | some capacity =>
  if capacity = 0 then Except.ok (Decision.skip Reason.capacityZero)
  else
  match convertPercentageToBytes (ann pvc increaseKey)
      capacity DefaultIncrease with
  | Except.error _ => Except.ok (Decision.skip Reason.increaseMalformed)
  | Except.ok increase =>
  match lookupKV pvc.annotations previousCapacityKey with
  | some previousCapacity =>
    (match parseGoInt previousCapacity with
     | none => Except.ok (Decision.skip Reason.markerMalformed)
     | some parsedPreviousCapacity =>
       if parsedPreviousCapacity = (m.volumeCapacityBytes : Int) then
         Except.ok (Decision.skip Reason.pending)
       else growthStage pvc capacity threshold increase m)
  | none => growthStage pvc capacity threshold increase m

/-- One iteration of the reconcile loop for one claim (reconcile.go lines
31 to 161): dereference of the storage class name (a nil pointer is a
runtime fault), storage class expandability, the external resizable
predicate, metrics presence, then the metrics-dependent stages. -/
def processPVC (env : Env) (metrics : Option PvcMetrics) (pvc : Pvc) :
    Except RuntimeFault Decision :=
  match pvc.storageClassName with
  | none => Except.error RuntimeFault.nilPointerDeref
  | some storageClassName =>
  match env.isExpandable storageClassName with
  | Except.error _ => Except.ok (Decision.skip Reason.storageClassLookupFailed)
  | Except.ok false => Except.ok (Decision.skip Reason.notExpandable)
  | Except.ok true =>
  match env.isResizable pvc with
  | Except.error _ => Except.ok (Decision.skip Reason.notResizable)
  | Except.ok _ =>
  match metrics with
  | none => Except.ok (Decision.skip Reason.noMetrics)
  | some m => processPVCMetrics m pvc

/-- Follows the spec's words, for comparison with `processPVCMetrics`: the
spec states that threshold and increase are both converted against the
claim's current capacity as the percentage reference, so here the threshold
conversion reads the status capacity (the value the raw target is built
from) instead of the metrics capacity; everything else is unchanged. -/
def processPVCMetricsSpecRef (m : PvcMetrics) (pvc : Pvc) :
    Except RuntimeFault Decision :=
  match convertPercentageToBytes (ann pvc thresholdKey)
      (pvc.statusCapacity.getD 0) DefaultThreshold with
  | Except.error _ => Except.ok (Decision.skip Reason.thresholdMalformed)
  | Except.ok threshold =>
  match pvc.statusCapacity with
  | none => Except.ok (Decision.skip Reason.capacityUnset)
  | some capacity =>
  if capacity = 0 then Except.ok (Decision.skip Reason.capacityZero)
  else
  match convertPercentageToBytes (ann pvc increaseKey)
      capacity DefaultIncrease with
  | Except.error _ => Except.ok (Decision.skip Reason.increaseMalformed)
  | Except.ok increase =>
  match lookupKV pvc.annotations previousCapacityKey with
  | some previousCapacity =>
    (match parseGoInt previousCapacity with
     | none => Except.ok (Decision.skip Reason.markerMalformed)
     | some parsedPreviousCapacity =>
       if parsedPreviousCapacity = (m.volumeCapacityBytes : Int) then
         Except.ok (Decision.skip Reason.pending)
       else growthStage pvc capacity threshold increase m)
  | none => growthStage pvc capacity threshold increase m

/-- The spec's-words pipeline wrapped in the same eligibility prelude as
`processPVC`. -/
def processPVCSpecRef (env : Env) (metrics : Option PvcMetrics) (pvc : Pvc) :
    Except RuntimeFault Decision :=
  match pvc.storageClassName with
  | none => Except.error RuntimeFault.nilPointerDeref
  | some storageClassName =>
  match env.isExpandable storageClassName with
  | Except.error _ => Except.ok (Decision.skip Reason.storageClassLookupFailed)
  | Except.ok false => Except.ok (Decision.skip Reason.notExpandable)
  | Except.ok true =>
  match env.isResizable pvc with
  | Except.error _ => Except.ok (Decision.skip Reason.notResizable)
  | Except.ok _ =>
  match metrics with
  | none => Except.ok (Decision.skip Reason.noMetrics)
  | some m => processPVCMetricsSpecRef m pvc

/-- Embeds `updatePVCWithNewStorageSize` (reconcile.go lines 165 to 180):
the claim object sent to the external update call, with the storage request
set to the new size and the previous-capacity annotation set to the decimal
rendering of `capacityBytes` (the pre-resize observed capacity the caller
passes in). -/
def updatePVCWithNewStorageSize (pvcToResize : Pvc) (capacityBytes : Nat)
    (newStorageBytes : Int) : Pvc :=
  { pvcToResize with
      requests := setKV pvcToResize.requests storageKey newStorageBytes
      annotations := setKV pvcToResize.annotations previousCapacityKey
        (toString capacityBytes) }

/-- Claim identity, `types.NamespacedName`. -/
structure NamespacedName where
  ns : String
  name : String
deriving DecidableEq

/-- Cycle-level inputs: the annotated claim listing (`getAnnotatedPVCs`) and
the metrics fetch (`FetchPVCsMetrics`), each of which can fail as a whole. -/
structure CycleInput where
  annotatedPVCs : Except String (List Pvc)
  pvcsMetrics : Except String (List (NamespacedName × PvcMetrics))

/-- Embeds the whole `reconcile` method (reconcile.go lines 17 to 163): a
listing failure is returned to the caller; a metrics fetch failure is
logged and the method returns nil with no claims processed; otherwise every
listed claim is processed with its metrics entry (if any). The result list
records the per-claim outcomes. -/
def reconcile (env : Env) (input : CycleInput) :
    Except String (List (NamespacedName × Except RuntimeFault Decision)) :=
  match input.annotatedPVCs with
  | Except.error e =>
    Except.error ("could not get PersistentVolumeClaims: " ++ e)
  | Except.ok items =>
  match input.pvcsMetrics with
  | Except.error _ => Except.ok []
  | Except.ok ms =>
    Except.ok (items.map (fun pvc =>
      (NamespacedName.mk pvc.ns pvc.name,
       processPVC env (lookupKV ms (NamespacedName.mk pvc.ns pvc.name)) pvc)))

/-- Environment whose external collaborators all succeed; used by the
concrete witnesses below. -/
def envAllOk : Env where
  isExpandable := fun _ => Except.ok true
  isResizable := fun _ => Except.ok ()

/-- Environment whose storage class lookup reports a class that does not
allow volume expansion. -/
def envNoExpand : Env where
  isExpandable := fun _ => Except.ok false
  isResizable := fun _ => Except.ok ()

/-- A 10 GiB claim with default policy and no marker. -/
def pvcA : Pvc where
  ns := "default"
  name := "data"
  storageClassName := some "fast"
  annotations := []
  statusCapacity := some 10737418240
  requests := [(storageKey, (10737418240 : Int))]

/-- A claim at exactly 2^53 bytes (8 PiB, gibibyte-aligned) of status
capacity with an absolute increase of one byte: the sum 2^53 + 1 is the
first natural number the float64 conversion of line 140 cannot represent,
and it rounds down to 2^53. -/
def pvc1 : Pvc where
  ns := "default"
  name := "huge"
  storageClassName := some "fast"
  annotations := [(increaseKey, "1")]
  statusCapacity := some 9007199254740992
  requests := []

/-- Metrics for `pvc1`: the full 2^53 bytes are in use (above the default
threshold) and the observed capacity matches the status capacity. -/
def m1 : PvcMetrics where
  volumeUsedBytes := 9007199254740992
  volumeCapacityBytes := 9007199254740992

/-- Metrics for `pvcA`: 9 GiB used of 10 GiB observed capacity. -/
def mA : PvcMetrics where
  volumeUsedBytes := 9663676416
  volumeCapacityBytes := 10737418240

/-- Metrics whose observed capacity (20 GiB) differs from the status
capacity of `pvcA` (10 GiB). -/
def m7 : PvcMetrics where
  volumeUsedBytes := 9663676416
  volumeCapacityBytes := 21474836480

/-- A claim whose previous-capacity marker equals the observed capacity in
`mA`: a resize is still pending. -/
def pvcP : Pvc where
  ns := "default"
  name := "db"
  storageClassName := some "fast"
  annotations := [(previousCapacityKey, "10737418240")]
  statusCapacity := some 10737418240
  requests := []

/-- A claim already at its configured 10 GiB ceiling. -/
def pvc4 : Pvc where
  ns := "default"
  name := "cache"
  storageClassName := some "fast"
  annotations := [(ceilingKey, "10Gi")]
  statusCapacity := some 10737418240
  requests := []

/-- A claim with the autoscaler policy attached but a nil storage class
name pointer. -/
def pvc9 : Pvc where
  ns := "default"
  name := "orphan"
  storageClassName := none
  annotations := []
  statusCapacity := some 10737418240
  requests := []

/-- A claim on a non-expandable storage class whose threshold annotation is
also malformed. -/
def pvc6 : Pvc where
  ns := "default"
  name := "logs"
  storageClassName := some "standard"
  annotations := [(thresholdKey, "oops")]
  statusCapacity := some 1073741824
  requests := []

/-- A claim whose status capacity entry is present but zero. -/
def pvc10 : Pvc where
  ns := "default"
  name := "empty"
  storageClassName := some "fast"
  annotations := []
  statusCapacity := some 0
  requests := []

/-- A cycle whose metrics fetch fails while the listing succeeds. -/
def input8 : CycleInput where
  annotatedPVCs := Except.ok [pvcA]
  pvcsMetrics := Except.error "connection refused"

theorem lookupKV_setKV_self {α : Type} (l : List (String × α)) (k : String)
    (v : α) : lookupKV (setKV l k v) k = some v := by
  induction l with
  | nil => simp [setKV, lookupKV]
  | cons hd tl ih =>
    obtain ⟨k', w⟩ := hd
    by_cases h : k' = k
    · simp [setKV, lookupKV, h]
    · simp [setKV, lookupKV, h, ih]

theorem lookupKV_setKV_ne {α : Type} (l : List (String × α)) (k key : String)
    (v : α) (h : key ≠ k) :
    lookupKV (setKV l k v) key = lookupKV l key := by
  have h' : k ≠ key := fun he => h he.symm
  induction l with
  | nil => simp [setKV, lookupKV, h']
  | cons hd tl ih =>
    obtain ⟨k', w⟩ := hd
    by_cases hk : k' = k
    · subst hk
      simp [setKV, lookupKV, h']
    · by_cases hk2 : k' = key
      · simp [setKV, lookupKV, hk, hk2, h]
      · simp [setKV, lookupKV, hk, hk2, ih]

theorem gib_dvd_gibCeil (n : Nat) : gib ∣ gibCeil n := by
  refine ⟨(n + (gib - 1)) / gib, ?_⟩
  unfold gibCeil
  exact Nat.mul_comm _ _

theorem le_gibCeil (n : Nat) : n ≤ gibCeil n := by
  unfold gibCeil gib
  omega

theorem gibCeil_min (n m : Nat) (hm : gib ∣ m) (h : n ≤ m) : gibCeil n ≤ m := by
  obtain ⟨j, rfl⟩ := hm
  unfold gibCeil gib at *
  omega

theorem clampToCeiling_le (c : Nat) (n : Int) :
    clampToCeiling (some c) n ≤ (c : Int) := by
  show (if (c : Int) < n then (c : Int) else n) ≤ (c : Int)
  split
  · exact le_refl _
  · omega

theorem roundFloat64_eq_self (n : Nat) (h : n ≤ 2 ^ 53) :
    roundFloat64 n = n := by
  by_cases hlt : n < 2 ^ 53
  · unfold roundFloat64
    rw [if_pos hlt]
  · have he : n = 2 ^ 53 := le_antisymm h (Nat.le_of_not_lt hlt)
    subst he
    decide

theorem wrapInt64_eq_self (x : Int) (h1 : -9223372036854775808 ≤ x)
    (h2 : x < 9223372036854775808) : wrapInt64 x = x := by
  unfold wrapInt64
  omega

theorem goGibCeil_exact (capacity increase : Nat)
    (h : capacity + increase ≤ 2 ^ 53) :
    goGibCeil capacity increase = (gibCeil (capacity + increase) : Int) := by
  have h53 : capacity + increase ≤ 9007199254740992 := by
    calc capacity + increase ≤ 2 ^ 53 := h
    _ = 9007199254740992 := by norm_num
  have h1 : wrapInt64 ((capacity : Int) + (increase : Int))
      = ((capacity + increase : Nat) : Int) := by
    unfold wrapInt64
    omega
  have h2 : float64OfInt64 ((capacity + increase : Nat) : Int)
      = ((capacity + increase : Nat) : Int) := by
    unfold float64OfInt64
    rw [if_pos (Int.natCast_nonneg _)]
    rw [Int.toNat_natCast]
    rw [roundFloat64_eq_self _ h]
  unfold goGibCeil
  rw [h1, h2]
  unfold wrapInt64 gibCeil gib
  omega

theorem convertPercentageToBytes_pos (s : String) (ref d inc : Nat)
    (hd : 1 ≤ d) (href : gib ≤ ref)
    (h : convertPercentageToBytes s ref d = Except.ok inc) : 0 < inc := by
  have h100 : (100 : Nat) ≤ ref := le_trans (by norm_num [gib]) href
  unfold convertPercentageToBytes at h
  split at h
  · simp only [Except.ok.injEq] at h
    subst h
    exact Nat.div_pos (le_trans h100 (Nat.le_mul_of_pos_left ref hd)) (by norm_num)
  · split at h
    · split at h
      next p hp =>
        split at h
        next hrange =>
          simp only [Except.ok.injEq] at h
          subst h
          exact Nat.div_pos
            (le_trans h100 (Nat.le_mul_of_pos_left ref hrange.1)) (by norm_num)
        next => simp at h
      next => simp at h
    · split at h
      next n hn =>
        split at h
        next hpos =>
          simp only [Except.ok.injEq] at h
          subst h
          exact hpos
        next => simp at h
      next => simp at h

theorem target_gt (capacity increase : Nat) (oc : Option Nat)
    (hcr : ceilingReached oc capacity = false)
    (h : 0 < increase ∨ capacity % gib ≠ 0)
    (hbound : capacity + increase ≤ 2 ^ 53) :
    (capacity : Int) < clampToCeiling oc (goGibCeil capacity increase) := by
  rw [goGibCeil_exact capacity increase hbound]
  have hg : capacity < gibCeil (capacity + increase) := by
    unfold gib at h
    unfold gibCeil gib
    omega
  cases oc with
  | none =>
    show (capacity : Int) < (gibCeil (capacity + increase) : Int)
    exact_mod_cast hg
  | some c =>
    have hc : ¬ (c ≤ capacity) := by
      simpa [ceilingReached] using hcr
    show (capacity : Int) <
      (if (c : Int) < (gibCeil (capacity + increase) : Int) then (c : Int)
       else (gibCeil (capacity + increase) : Int))
    split
    · have hlt : capacity < c := by omega
      exact_mod_cast hlt
    · exact_mod_cast hg

theorem growthStage_resize_inv (pvc : Pvc) (capacity threshold increase : Nat)
    (m : PvcMetrics) (t : Int) (mk : Nat)
    (h : growthStage pvc capacity threshold increase m
      = Except.ok (Decision.resize t mk)) :
    ∃ oc, getPVCStorageCeiling pvc = Except.ok oc ∧
      ceilingReached oc capacity = false ∧
      threshold ≤ m.volumeUsedBytes ∧
      t = clampToCeiling oc (goGibCeil capacity increase) ∧
      mk = m.volumeCapacityBytes := by
  unfold growthStage at h
  split at h
  · simp at h
  next oc hoc =>
    split at h
    · simp at h
    next hcr =>
      split at h
      next ht =>
        simp only [Except.ok.injEq, Decision.resize.injEq] at h
        exact ⟨oc, hoc, Bool.eq_false_iff.mpr hcr, ht, h.1.symm, h.2.symm⟩
      next ht => simp at h

theorem processPVCMetrics_resize_inv (m : PvcMetrics) (pvc : Pvc) (t : Int)
    (mk : Nat)
    (h : processPVCMetrics m pvc = Except.ok (Decision.resize t mk)) :
    ∃ threshold capacity increase,
      convertPercentageToBytes (ann pvc thresholdKey)
        m.volumeCapacityBytes DefaultThreshold = Except.ok threshold ∧
      pvc.statusCapacity = some capacity ∧
      capacity ≠ 0 ∧
      convertPercentageToBytes (ann pvc increaseKey)
        capacity DefaultIncrease = Except.ok increase ∧
      (∀ prev, lookupKV pvc.annotations previousCapacityKey = some prev →
        ∃ p, parseGoInt prev = some p ∧ p ≠ (m.volumeCapacityBytes : Int)) ∧
      growthStage pvc capacity threshold increase m
        = Except.ok (Decision.resize t mk) := by
  unfold processPVCMetrics at h
  split at h
  · simp at h
  next threshold hthr =>
    split at h
    · simp at h
    next capacity hcap =>
      split at h
      · simp at h
      next hcap0 =>
        split at h
        · simp at h
        next increase hinc =>
          split at h
          next prev hprev =>
            split at h
            · simp at h
            next p hp =>
              split at h
              · simp at h
              next hne =>
                refine ⟨threshold, capacity, increase, hthr, hcap, hcap0, hinc,
                  ?_, h⟩
                intro prev' hprev'
                rw [hprev] at hprev'
                cases hprev'
                exact ⟨p, hp, hne⟩
          next hprev =>
            refine ⟨threshold, capacity, increase, hthr, hcap, hcap0, hinc,
              ?_, h⟩
            intro prev' hprev'
            rw [hprev] at hprev'
            cases hprev'

theorem processPVC_resize_inv (env : Env) (metrics : Option PvcMetrics)
    (pvc : Pvc) (t : Int) (mk : Nat)
    (h : processPVC env metrics pvc = Except.ok (Decision.resize t mk)) :
    ∃ scn m threshold capacity increase oc,
      pvc.storageClassName = some scn ∧
      env.isExpandable scn = Except.ok true ∧
      (∃ u, env.isResizable pvc = Except.ok u) ∧
      metrics = some m ∧
      convertPercentageToBytes (ann pvc thresholdKey)
        m.volumeCapacityBytes DefaultThreshold = Except.ok threshold ∧
      pvc.statusCapacity = some capacity ∧
      capacity ≠ 0 ∧
      convertPercentageToBytes (ann pvc increaseKey)
        capacity DefaultIncrease = Except.ok increase ∧
      (∀ prev, lookupKV pvc.annotations previousCapacityKey = some prev →
        ∃ p, parseGoInt prev = some p ∧ p ≠ (m.volumeCapacityBytes : Int)) ∧
      getPVCStorageCeiling pvc = Except.ok oc ∧
      ceilingReached oc capacity = false ∧
      threshold ≤ m.volumeUsedBytes ∧
      t = clampToCeiling oc (goGibCeil capacity increase) ∧
      mk = m.volumeCapacityBytes := by
  unfold processPVC at h
  split at h
  · simp at h
  next scn hscn =>
    split at h
    · simp at h
    · simp at h
    next hexp =>
      split at h
      · simp at h
      next u hres =>
        cases metrics with
        | none => simp at h
        | some mm =>
          obtain ⟨threshold, capacity, increase, hthr, hcap, hcap0, hinc,
            hmark, hgrow⟩ := processPVCMetrics_resize_inv mm pvc t mk h
          obtain ⟨oc, hoc, hcr, hused, ht, hmk⟩ :=
            growthStage_resize_inv pvc capacity threshold increase mm t mk hgrow
          exact ⟨scn, mm, threshold, capacity, increase, oc, hscn, hexp,
            ⟨u, hres⟩, rfl, hthr, hcap, hcap0, hinc, hmark, hoc, hcr, hused,
            ht, hmk⟩

/-- C1 counterexample: pvc1 holds exactly 2^53 bytes (gibibyte-aligned)
with an absolute increase of one byte and no ceiling; usage is above the
threshold, so a resize decision is issued, but the float64 conversion of
line 140 rounds 2^53 + 1 down to 2^53 and the target equals the current
capacity instead of exceeding it. -/
theorem resize_target_not_above_capacity_cex :
    pvc1.statusCapacity = some 9007199254740992 ∧
    convertPercentageToBytes (ann pvc1 increaseKey) 9007199254740992
      DefaultIncrease = Except.ok 1 ∧
    processPVC envAllOk (some m1) pvc1
      = Except.ok (Decision.resize 9007199254740992 9007199254740992) ∧
    ¬ (((9007199254740992 : Nat) : Int) < (9007199254740992 : Int)) :=
  ⟨rfl, rfl, rfl, by omega⟩

/-- C1 amended: for every resize decision, when a ceiling is configured the
target is at most the ceiling; and whenever capacity + increase is at most
2^53 — the range on which the float64 arithmetic of line 140 is exact —
the target is strictly greater than the claim's current capacity. Beyond
that range the rounding can return a target equal to the capacity and the
resize is still issued. -/
theorem resize_target_grows_in_exact_range_and_respects_ceiling
    (env : Env) (metrics : Option PvcMetrics) (pvc : Pvc) (t : Int) (mk : Nat)
    (h : processPVC env metrics pvc = Except.ok (Decision.resize t mk)) :
    ∃ capacity increase,
      pvc.statusCapacity = some capacity ∧
      convertPercentageToBytes (ann pvc increaseKey) capacity DefaultIncrease
        = Except.ok increase ∧
      (capacity + increase ≤ 2 ^ 53 → (capacity : Int) < t) ∧
      ∀ c, getPVCStorageCeiling pvc = Except.ok (some c) → t ≤ (c : Int) := by
  obtain ⟨scn, m, threshold, capacity, increase, oc, hscn, hexp, hres, hm,
    hthr, hcap, hcap0, hinc, hmark, hoc, hcr, hused, ht, hmk⟩ :=
    processPVC_resize_inv env metrics pvc t mk h
  subst ht
  refine ⟨capacity, increase, hcap, hinc, ?_, ?_⟩
  · intro hbound
    have hpos : 0 < increase ∨ capacity % gib ≠ 0 := by
      by_cases hdvd : capacity % gib = 0
      · left
        have hdvd' : gib ∣ capacity := Nat.dvd_of_mod_eq_zero hdvd
        have hge : gib ≤ capacity :=
          Nat.le_of_dvd (Nat.pos_of_ne_zero hcap0) hdvd'
        exact convertPercentageToBytes_pos (ann pvc increaseKey) capacity
          DefaultIncrease increase (by norm_num [DefaultIncrease]) hge hinc
      · right
        exact hdvd
    exact target_gt capacity increase oc hcr hpos hbound
  · intro c hc
    rw [hoc] at hc
    injection hc with hc'
    subst hc'
    exact clampToCeiling_le c _

/-- Witness for C1 amended: pvcA resizes from 10 GiB to 12 GiB, inside the
exact range, and the strict growth is obtained from the theorem. -/
theorem resize_target_grows_in_exact_range_and_respects_ceiling_witness :
    processPVC envAllOk (some mA) pvcA
      = Except.ok (Decision.resize 12884901888 10737418240) ∧
    ((10737418240 : Nat) : Int) < (12884901888 : Int) := by
  refine ⟨rfl, ?_⟩
  obtain ⟨capacity, increase, hcap, hinc, hstrict, hceil⟩ :=
    resize_target_grows_in_exact_range_and_respects_ceiling envAllOk
      (some mA) pvcA 12884901888 10737418240 rfl
  have hcap' : some (10737418240 : Nat) = some capacity := hcap
  injection hcap' with he
  subst he
  have hinc' : Except.ok (2147483648 : Nat) = Except.ok increase := hinc
  injection hinc' with he2
  subst he2
  exact hstrict (by norm_num)

/-- C2: a claim whose previous-capacity marker is present and numerically
equal to the observed capacity from metrics never yields a resize decision,
regardless of usage; the per-claim pipeline is a pure function of its
inputs, so every repeated invocation with the same observed capacity
produces the same skip. -/
theorem pending_marker_forces_skip (env : Env) (m : PvcMetrics) (pvc : Pvc)
    (prev : String)
    (hprev : lookupKV pvc.annotations previousCapacityKey = some prev)
    (hparse : parseGoInt prev = some ((m.volumeCapacityBytes : Nat) : Int)) :
    ∀ t mk, processPVC env (some m) pvc ≠ Except.ok (Decision.resize t mk) := by
  intro t mk h
  obtain ⟨scn, m', threshold, capacity, increase, oc, hscn, hexp, hres, hm,
    hthr, hcap, hcap0, hinc, hmark, hoc, hcr, hused, ht, hmk⟩ :=
    processPVC_resize_inv env (some m) pvc t mk h
  injection hm with hm'
  subst hm'
  obtain ⟨p, hp, hne⟩ := hmark prev hprev
  rw [hparse] at hp
  injection hp with hp'
  exact hne hp'.symm

/-- Witness for C2: pvcP carries the marker "10737418240" and mA observes
exactly that capacity, so no resize is produced. -/
theorem pending_marker_forces_skip_witness :
    processPVC envAllOk (some mA) pvcP ≠ Except.ok (Decision.resize 0 0) :=
  pending_marker_forces_skip envAllOk mA pvcP "10737418240" rfl rfl 0 0

/-- C3 counterexample: the pre-clamp target computation of line 140, at
capacity 2^53 and increase 1, yields 2^53, which is strictly below
capacity + increase = 2^53 + 1: the float64 conversion rounds down, so the
pre-clamp target is not the smallest gibibyte multiple at or above
capacity + increase. -/
theorem gib_rounding_rounds_down_cex :
    goGibCeil 9007199254740992 1 = (9007199254740992 : Int) ∧
    (9007199254740992 : Int) < ((9007199254740992 : Nat) + 1 : Nat) :=
  ⟨rfl, by omega⟩

/-- C3 amended: whenever capacity + increase is at most 2^53 (the range on
which the float64 arithmetic of line 140 is exact), the pre-clamp target
equals the exact round-up: a multiple of 1 GiB, at least
capacity + increase, and the least gibibyte multiple with that property;
beyond 2^53 the conversion to float64 can round down. -/
theorem gib_rounding_correct_in_exact_range (capacity increase : Nat)
    (h : capacity + increase ≤ 2 ^ 53) :
    goGibCeil capacity increase = (gibCeil (capacity + increase) : Int) ∧
    gib ∣ gibCeil (capacity + increase) ∧
    capacity + increase ≤ gibCeil (capacity + increase) ∧
    ∀ m, gib ∣ m → capacity + increase ≤ m → gibCeil (capacity + increase) ≤ m :=
  ⟨goGibCeil_exact capacity increase h, gib_dvd_gibCeil _, le_gibCeil _,
    fun m hm hle => gibCeil_min _ m hm hle⟩

/-- Witness for C3 amended at capacity 4000000000 and increase 1000000000:
the program's pre-clamp target is the exact round-up of 5000000000, a
gibibyte multiple at least 5000000000 and at most the multiple 5 GiB. -/
theorem gib_rounding_correct_in_exact_range_witness :
    goGibCeil 4000000000 1000000000 = (gibCeil 5000000000 : Int) ∧
    gib ∣ gibCeil 5000000000 ∧ (5000000000 : Nat) ≤ gibCeil 5000000000 ∧
    gibCeil 5000000000 ≤ 5 * gib := by
  obtain ⟨h1, h2, h3, h4⟩ :=
    gib_rounding_correct_in_exact_range 4000000000 1000000000 (by norm_num)
  exact ⟨h1, h2, h3, h4 (5 * gib) ⟨5, by norm_num [gib]⟩ (by norm_num [gib])⟩

/-- C4: a claim whose status capacity is at or above its configured ceiling
never yields a resize decision, whatever its usage. -/
theorem at_or_above_ceiling_never_resizes (env : Env)
    (metrics : Option PvcMetrics) (pvc : Pvc) (c capacity : Nat)
    (hceil : getPVCStorageCeiling pvc = Except.ok (some c))
    (hcap : pvc.statusCapacity = some capacity)
    (hc : c ≤ capacity) :
    ∀ t mk, processPVC env metrics pvc ≠ Except.ok (Decision.resize t mk) := by
  intro t mk h
  obtain ⟨scn, m, threshold, capacity', increase, oc, hscn, hexp, hres, hm,
    hthr, hcap', hcap0, hinc, hmark, hoc, hcr, hused, ht, hmk⟩ :=
    processPVC_resize_inv env metrics pvc t mk h
  rw [hcap] at hcap'
  injection hcap' with he
  subst he
  rw [hceil] at hoc
  injection hoc with hoc'
  subst hoc'
  simp [ceilingReached] at hcr
  omega

/-- Witness for C4: pvc4 sits exactly at its 10 GiB ceiling with usage
above threshold, and is not resized. -/
theorem at_or_above_ceiling_never_resizes_witness :
    processPVC envAllOk (some mA) pvc4 ≠ Except.ok (Decision.resize 0 0) :=
  at_or_above_ceiling_never_resizes envAllOk (some mA) pvc4
    10737418240 10737418240 rfl rfl (le_refl _) 0 0

/-- C5: for every resize decision, the persisted write changes only the
storage request and the previous-capacity annotation; the threshold,
increase and ceiling annotations and every other field are unchanged, and
the marker written is the decimal rendering of the pre-resize observed
capacity from metrics (not the new target). -/
theorem update_writes_only_request_and_marker (env : Env)
    (metrics : Option PvcMetrics) (pvc : Pvc) (t : Int) (mk : Nat)
    (h : processPVC env metrics pvc = Except.ok (Decision.resize t mk)) :
    (∃ m, metrics = some m ∧ mk = m.volumeCapacityBytes) ∧
    lookupKV (updatePVCWithNewStorageSize pvc mk t).annotations
      previousCapacityKey = some (toString mk) ∧
    lookupKV (updatePVCWithNewStorageSize pvc mk t).requests storageKey
      = some t ∧
    (∀ k, k ≠ previousCapacityKey →
      lookupKV (updatePVCWithNewStorageSize pvc mk t).annotations k
        = lookupKV pvc.annotations k) ∧
    (∀ k, k ≠ storageKey →
      lookupKV (updatePVCWithNewStorageSize pvc mk t).requests k
        = lookupKV pvc.requests k) ∧
    lookupKV (updatePVCWithNewStorageSize pvc mk t).annotations thresholdKey
      = lookupKV pvc.annotations thresholdKey ∧
    lookupKV (updatePVCWithNewStorageSize pvc mk t).annotations increaseKey
      = lookupKV pvc.annotations increaseKey ∧
    lookupKV (updatePVCWithNewStorageSize pvc mk t).annotations ceilingKey
      = lookupKV pvc.annotations ceilingKey ∧
    (updatePVCWithNewStorageSize pvc mk t).ns = pvc.ns ∧
    (updatePVCWithNewStorageSize pvc mk t).name = pvc.name ∧
    (updatePVCWithNewStorageSize pvc mk t).storageClassName
      = pvc.storageClassName ∧
    (updatePVCWithNewStorageSize pvc mk t).statusCapacity
      = pvc.statusCapacity := by
  obtain ⟨scn, m, threshold, capacity, increase, oc, hscn, hexp, hres, hm,
    hthr, hcap, hcap0, hinc, hmark, hoc, hcr, hused, ht, hmk⟩ :=
    processPVC_resize_inv env metrics pvc t mk h
  unfold updatePVCWithNewStorageSize
  refine ⟨⟨m, hm, hmk⟩, ?_, ?_, ?_, ?_, ?_, ?_, ?_, rfl, rfl, rfl, rfl⟩
  · exact lookupKV_setKV_self _ _ _
  · exact lookupKV_setKV_self _ _ _
  · intro k hk
    exact lookupKV_setKV_ne _ _ _ _ hk
  · intro k hk
    exact lookupKV_setKV_ne _ _ _ _ hk
  · exact lookupKV_setKV_ne _ _ _ _ (by decide)
  · exact lookupKV_setKV_ne _ _ _ _ (by decide)
  · exact lookupKV_setKV_ne _ _ _ _ (by decide)

/-- Witness for C5 at the concrete resize of pvcA: the marker annotation is
written with the pre-resize capacity, the threshold annotation is
untouched, and the storage request holds the new target. -/
theorem update_writes_only_request_and_marker_witness :
    lookupKV (updatePVCWithNewStorageSize pvcA 10737418240 12884901888).annotations
      previousCapacityKey = some (toString (10737418240 : Nat)) ∧
    lookupKV (updatePVCWithNewStorageSize pvcA 10737418240 12884901888).annotations
      thresholdKey = lookupKV pvcA.annotations thresholdKey ∧
    lookupKV (updatePVCWithNewStorageSize pvcA 10737418240 12884901888).requests
      storageKey = some 12884901888 := by
  have hmain := update_writes_only_request_and_marker envAllOk (some mA) pvcA
    12884901888 10737418240 rfl
  exact ⟨hmain.2.1, hmain.2.2.2.2.2.1, hmain.2.2.1⟩

/-- C6 counterexample: pvc6 has a malformed threshold annotation, yet the
decision reports the storage class ineligibility, not the parse failure:
eligibility runs before policy parsing, so the claimed parse-first order is
false on the code. -/
theorem eligibility_precedes_parse_cex :
    (∃ e, convertPercentageToBytes (ann pvc6 thresholdKey)
      mA.volumeCapacityBytes DefaultThreshold = Except.error e) ∧
    processPVC envNoExpand (some mA) pvc6
      = Except.ok (Decision.skip Reason.notExpandable) :=
  ⟨⟨"unable to parse quantity", rfl⟩, rfl⟩

/-- C6 amended: the per-claim pipeline executes eligibility first (storage
class expandability, the resizable predicate, metrics presence), then
parses the threshold, checks the status capacity, parses the increase,
then applies the oscillation guard, and only then the growth stage; each
stage short-circuits all later stages. The conjuncts state, in order: a
non-expandable class wins regardless of the annotations; a threshold parse
error surfaces only after eligibility passes, even when the marker is
pending; a pending marker wins over any usage; and a resize implies every
eligibility gate passed. -/
theorem pipeline_stage_order (env : Env) (metrics : Option PvcMetrics)
    (pvc : Pvc) (scn : String) (hscn : pvc.storageClassName = some scn) :
    (env.isExpandable scn = Except.ok false →
       processPVC env metrics pvc
         = Except.ok (Decision.skip Reason.notExpandable)) ∧
    (∀ m e u, env.isExpandable scn = Except.ok true →
       env.isResizable pvc = Except.ok u → metrics = some m →
       convertPercentageToBytes (ann pvc thresholdKey)
         m.volumeCapacityBytes DefaultThreshold = Except.error e →
       processPVC env metrics pvc
         = Except.ok (Decision.skip Reason.thresholdMalformed)) ∧
    (∀ m u threshold capacity increase prev,
       env.isExpandable scn = Except.ok true →
       env.isResizable pvc = Except.ok u → metrics = some m →
       convertPercentageToBytes (ann pvc thresholdKey)
         m.volumeCapacityBytes DefaultThreshold = Except.ok threshold →
       pvc.statusCapacity = some capacity → capacity ≠ 0 →
       convertPercentageToBytes (ann pvc increaseKey)
         capacity DefaultIncrease = Except.ok increase →
       lookupKV pvc.annotations previousCapacityKey = some prev →
       parseGoInt prev = some ((m.volumeCapacityBytes : Nat) : Int) →
       processPVC env metrics pvc = Except.ok (Decision.skip Reason.pending)) ∧
    (∀ t mk, processPVC env metrics pvc = Except.ok (Decision.resize t mk) →
       env.isExpandable scn = Except.ok true ∧
       (∃ u, env.isResizable pvc = Except.ok u) ∧ ∃ m, metrics = some m) := by
  refine ⟨?_, ?_, ?_, ?_⟩
  · intro hexp
    simp [processPVC, hscn, hexp]
  · intro m e u hexp hres hm hthr
    subst hm
    simp [processPVC, processPVCMetrics, hscn, hexp, hres, hthr]
  · intro m u threshold capacity increase prev hexp hres hm hthr hcap hcap0
      hinc hprev hparse
    subst hm
    simp [processPVC, processPVCMetrics, hscn, hexp, hres, hthr, hcap, hcap0,
      hinc, hprev, hparse]
  · intro t mk h
    obtain ⟨scn', m, threshold, capacity, increase, oc, hscn', hexp, hres, hm,
      _, _, _, _, _, _, _, _, _, _⟩ := processPVC_resize_inv env metrics pvc t mk h
    rw [hscn] at hscn'
    injection hscn' with he
    subst he
    exact ⟨hexp, hres, ⟨m, hm⟩⟩

/-- Witness for C6 at concrete inputs: the not-expandable short circuit on
pvc6 and the pending short circuit on pvcP. -/
theorem pipeline_stage_order_witness :
    processPVC envNoExpand (some mA) pvc6
      = Except.ok (Decision.skip Reason.notExpandable) ∧
    processPVC envAllOk (some mA) pvcP
      = Except.ok (Decision.skip Reason.pending) := by
  constructor
  · exact (pipeline_stage_order envNoExpand (some mA) pvc6 "standard" rfl).1 rfl
  · exact (pipeline_stage_order envAllOk (some mA) pvcP "fast" rfl).2.2.1 mA ()
      8589934592 10737418240 2147483648 "10737418240" rfl rfl rfl rfl rfl
      (by decide) rfl rfl rfl

/-- C7 counterexample: on pvcA with metrics m7 (status capacity 10 GiB,
observed metrics capacity 20 GiB, 9 GiB used) the code skips below
threshold, while the spec's common-reference reading resizes: the two
conversions do not use the same current-capacity reference. -/
theorem conversion_refs_differ_cex :
    pvcA.statusCapacity = some 10737418240 ∧
    m7.volumeCapacityBytes = 21474836480 ∧
    processPVC envAllOk (some m7) pvcA
      = Except.ok (Decision.skip Reason.belowThreshold) ∧
    processPVCSpecRef envAllOk (some m7) pvcA
      = Except.ok (Decision.resize 12884901888 21474836480) :=
  ⟨rfl, rfl, rfl, rfl⟩

/-- C7 amended: the threshold is converted against the metrics-observed
capacity (reconcile.go line 78) while the increase is converted against the
status capacity (line 97); the two references coincide exactly when the
observed capacity equals the status capacity, and then the pipeline agrees
with the spec's common-reference reading. -/
theorem common_ref_when_capacities_agree (env : Env) (m : PvcMetrics)
    (pvc : Pvc) (capacity : Nat)
    (hcap : pvc.statusCapacity = some capacity)
    (hm : m.volumeCapacityBytes = capacity) :
    processPVC env (some m) pvc = processPVCSpecRef env (some m) pvc := by
  have hcore : processPVCMetrics m pvc = processPVCMetricsSpecRef m pvc := by
    unfold processPVCMetrics processPVCMetricsSpecRef
    rw [hcap]
    simp only [Option.getD_some]
    rw [hm]
  cases hscn : pvc.storageClassName with
  | none => simp [processPVC, processPVCSpecRef, hscn]
  | some scn =>
    cases hexp : env.isExpandable scn with
    | error e => simp [processPVC, processPVCSpecRef, hscn, hexp]
    | ok b =>
      cases b with
      | false => simp [processPVC, processPVCSpecRef, hscn, hexp]
      | true =>
        cases hres : env.isResizable pvc with
        | error e => simp [processPVC, processPVCSpecRef, hscn, hexp, hres]
        | ok u =>
          simp [processPVC, processPVCSpecRef, hscn, hexp, hres, hcore]

/-- Witness for C7 amended: on pvcA with mA (both capacities 10 GiB) the
pipeline and the common-reference reading agree. -/
theorem common_ref_when_capacities_agree_witness :
    processPVC envAllOk (some mA) pvcA = processPVCSpecRef envAllOk (some mA) pvcA :=
  common_ref_when_capacities_agree envAllOk mA pvcA 10737418240 rfl rfl

/-- C8 counterexample: with a failing metrics fetch the reconcile cycle is
aborted with no claims processed, but no error reaches the caller: the
method returns ok, refuting the claim that the error is surfaced. -/
theorem metrics_failure_not_surfaced_cex :
    input8.pvcsMetrics = Except.error "connection refused" ∧
    input8.annotatedPVCs = Except.ok [pvcA] ∧
    reconcile envAllOk input8 = Except.ok [] :=
  ⟨rfl, rfl, rfl⟩

/-- C8 amended: when the metrics fetch for the cycle fails, the entire
cycle is aborted with no claims processed, but the error is only logged:
reconcile returns nil (ok) rather than surfacing the error to its caller. -/
theorem metrics_failure_aborts_cycle_silently (env : Env) (pvcs : List Pvc)
    (e : String) :
    reconcile env
      { annotatedPVCs := Except.ok pvcs, pvcsMetrics := Except.error e }
      = Except.ok [] :=
  rfl

/-- C9: processing a claim whose storage class name pointer is nil faults
(the nil pointer dereference of reconcile.go line 36), contradicting the
claim that no single bad claim can crash the process. -/
theorem nil_storage_class_name_faults :
    processPVC envAllOk (some mA) pvc9
      = Except.error RuntimeFault.nilPointerDeref :=
  rfl

/-- C10: a claim whose status capacity entry is present but zero never
yields a resize decision, whatever the environment, metrics and usage. -/
theorem zero_capacity_skips (env : Env) (metrics : Option PvcMetrics)
    (pvc : Pvc) (h0 : pvc.statusCapacity = some 0) :
    ∀ t mk, processPVC env metrics pvc ≠ Except.ok (Decision.resize t mk) := by
  intro t mk h
  obtain ⟨scn, m, threshold, capacity, increase, oc, hscn, hexp, hres, hm,
    hthr, hcap, hcap0, hinc, hmark, hoc, hcr, hused, ht, hmk⟩ :=
    processPVC_resize_inv env metrics pvc t mk h
  rw [h0] at hcap
  injection hcap with he
  exact hcap0 he.symm

/-- Witness for C10: pvc10 has a zero status capacity and is skipped. -/
theorem zero_capacity_skips_witness :
    processPVC envAllOk (some mA) pvc10 ≠ Except.ok (Decision.resize 0 0) :=
  zero_capacity_skips envAllOk (some mA) pvc10 rfl 0 0
